import Mathlib

/-!
# Verification of the JupyterLab running-extension core

Shallow embedding of `packages/running-extension/src/index.ts`: the
`OpenTabsSignaler` subscription state machine, the open-tabs provider's
`RunningItem` implementation (`OpenTab`), and the kernel-session provider
(`filterSessions`, `RunningKernel.icon/open/label`, `shutdownAll`).

Strings are embedded as Lean `String`; the JS idiom `s.indexOf(sub) !== -1`
becomes the decidable infix test `strIncludes`, and JS string truthiness
(`m.name || e`) becomes a test against the empty string.
-/

/-- Whether the first character list is a prefix of the second. -/
def charsPrefix : List Char → List Char → Bool
  | [], _ => true
  | _ :: _, [] => false
  | c :: cs, d :: ds => (c == d) && charsPrefix cs ds

/-- Whether `sub` occurs as a contiguous run inside `s`. -/
def charsIncludes (s sub : List Char) : Bool :=
  match s with
  | [] => charsPrefix sub []
  | _ :: rest => charsPrefix sub s || charsIncludes rest sub

/-- JS `s.indexOf(sub) !== -1`: `sub` occurs as a contiguous substring of `s`. -/
def strIncludes (s sub : String) : Bool :=
  charsIncludes s.data sub.data

/-- JS string truthiness: a string is truthy iff it is nonempty. -/
def strTruthy (s : String) : Bool :=
  s ≠ ""

/-- ASCII-faithful lowercasing that reduces by kernel computation
(`String.toLowerCase` of JS, `String.toLower` of Lean, restricted to the
character-by-character map). -/
def strToLower (s : String) : String :=
  ⟨s.data.map Char.toLower⟩

/-- Modelled from the spec: `PathExt.basename` (from `@jupyterlab/coreutils`,
which is not under `src/`) returns the last component of a slash-separated
path — the part of the path after the final `/`. -/
def basename (path : String) : String :=
  ⟨((path.data.reverse.takeWhile (fun c => c != '/')).reverse)⟩

/-- The icons from `@jupyterlab/ui-components` that this extension uses. -/
inductive LabIcon
  | notebookIcon
  | consoleIcon
  | fileIcon
  | runningIcon
deriving DecidableEq, Repr

/-- `Session.IModel`: the fields of a kernel-session record that the
running-extension reads (`id`, `name`, `path`, `type`). -/
structure SessionModel where
  id : String
  name : String
  path : String
  type : String
deriving DecidableEq, Repr

/-- The identifying string of a session record, as the source computes it:
`m.name || PathExt.basename(m.path)` (the name when truthy, else the
basename of the path). -/
def SessionModel.identifying (m : SessionModel) : String :=
  if strTruthy m.name then m.name else basename m.path

/-- `filterSessions` from `addKernelRunningSessionManager`:
`!!((m.name || PathExt.basename(m.path)).indexOf('.') !== -1 || m.name)`. -/
def filterSessions (m : SessionModel) : Bool :=
  strIncludes m.identifying "." || strTruthy m.name

/-- The kernel provider's `running()`: the currently running session records,
filtered by `filterSessions` (each surviving record becomes a
`RunningKernel` item, which is determined by its model). -/
def runningKernels (models : List SessionModel) : List SessionModel :=
  models.filter filterSessions

namespace RunningKernel

/-- `RunningKernel.icon`: notebook icon when `(name || basename(path))`
contains `'.ipynb'`; else console icon when the type tag lowercases to
`'console'`; else the generic file icon. -/
def icon (m : SessionModel) : LabIcon :=
  if strIncludes m.identifying ".ipynb" then .notebookIcon
  else if strToLower m.type = "console" then .consoleIcon
  else .fileIcon

/-- The two external command channels `RunningKernel.open` can dispatch to,
with the argument it passes. -/
inductive Command
  | consoleOpen (path : String)
  | docmanagerOpen (path : String)
deriving DecidableEq, Repr

/-- `RunningKernel.open`: `console:open` when `type.toLowerCase() === 'console'`,
else `docmanager:open`, in both cases with the record's path. -/
def «open» (m : SessionModel) : Command :=
  if strToLower m.type = "console" then .consoleOpen m.path
  else .docmanagerOpen m.path

/-- `RunningKernel.label`: `name || basename(path)`. -/
def label (m : SessionModel) : String :=
  m.identifying

end RunningKernel

/-- The widget kinds `OpenTabsSignaler.addWidget` distinguishes: the
`widget instanceof MainAreaWidget` test. -/
inductive WidgetKind
  | mainArea
  | other
deriving DecidableEq, Repr

/-- The part of a Lumino `Widget` the open-tabs provider reads: an identity
(for subscription bookkeeping), whether it is a `MainAreaWidget`, and its
title label. -/
structure Widget where
  id : Nat
  kind : WidgetKind
  titleLabel : String
deriving DecidableEq, Repr

namespace OpenTabsSignaler

/-- The observable state of one `OpenTabsSignaler` instance.

`widgets` is the `_widgets` array (tracked `MainAreaWidget`s, by id, in push
order).  `titleSubs` is the multiset of `content.title.changed` subscriptions
currently connecting a tracked widget's title signal to `_emitTabsChanged`;
it is modelled from the spec, because `@lumino/signaling` is an external
collaborator outside the spec's scope: per the spec a connect registers one
subscription pair and a disconnect detaches one registered pair, with no
idempotent deduplication assumed.  `emissions` counts how many times the
`_tabsChanged` signal has been emitted. -/
structure State where
  widgets : List Nat
  titleSubs : List Nat
  emissions : Nat
deriving DecidableEq, Repr

/-- The constructor's state: no tracked widgets, no title subscriptions, no
emissions yet (the constructor also connects `_emitTabsChanged` to the
shell's `layoutModified`, which `layoutModified` below replays). -/
def init : State :=
  ⟨[], [], 0⟩

/-- `OpenTabsSignaler.addWidget`: if the widget is a `MainAreaWidget`,
connect `_emitTabsChanged` to its `content.title.changed` and push it onto
`_widgets`; otherwise do nothing. -/
def addWidget (s : State) (w : Widget) : State :=
  match w.kind with
  | .mainArea => { s with titleSubs := s.titleSubs ++ [w.id], widgets := s.widgets ++ [w.id] }
  | .other => s

/-- `OpenTabsSignaler._emitTabsChanged`: disconnect every tracked widget's
title subscription, clear `_widgets`, then emit `_tabsChanged` once. -/
def emitTabsChanged (s : State) : State :=
  { titleSubs := s.widgets.foldl (fun subs w => subs.erase w) s.titleSubs
    widgets := []
    emissions := s.emissions + 1 }

/-- A `layoutModified` notification from the shell: the constructor connected
`_emitTabsChanged` to it (exactly once), so the handler body runs once. -/
def layoutModified (s : State) : State :=
  emitTabsChanged s

/-- Run the `_emitTabsChanged` handler body `n` times in sequence. -/
def emitIter : Nat → State → State
  | 0, s => s
  | n + 1, s => emitIter n (emitTabsChanged s)

/-- A `content.title.changed` notification from the widget with id `w`: the
handler `_emitTabsChanged` runs once per subscription pair registered for
`w` at the moment the signal fires. -/
def titleChanged (s : State) (w : Nat) : State :=
  emitIter (s.titleSubs.count w) s

/-- The individually observable steps of the `_emitTabsChanged` handler body,
in execution order. -/
inductive TraceEvent
  | unsubscribe (w : Nat)
  | clearTracked
  | emitSignal
deriving DecidableEq, Repr

/-- `_emitTabsChanged` instrumented with a trace: first the
`forEach`-disconnect of each tracked widget, then the clearing assignment
`this._widgets = []`, then the `this._tabsChanged.emit(void 0)`. -/
def emitTabsChangedRun (s : State) : State × List TraceEvent :=
  let s1 : State := { s with titleSubs := s.widgets.foldl (fun subs w => subs.erase w) s.titleSubs }
  let t1 : List TraceEvent := s.widgets.map TraceEvent.unsubscribe
  let s2 : State := { s1 with widgets := [] }
  let s3 : State := { s2 with emissions := s2.emissions + 1 }
  (s3, t1 ++ [TraceEvent.clearTracked, TraceEvent.emitSignal])

end OpenTabsSignaler

namespace OpenTab

/-- `OpenTab.icon`: returns the generic file icon unconditionally (the
source's classification of the widget's own icon is commented out). -/
def icon (_w : Widget) : LabIcon :=
  .fileIcon

/-- `OpenTab.label`: the widget's title label. -/
def label (w : Widget) : String :=
  w.titleLabel

end OpenTab

/-- One item as seen by `shutdownAll`, together with whether its individual
shutdown fails (a transport-level outcome). -/
structure ShutdownItem where
  id : Nat
  fails : Bool
deriving DecidableEq, Repr

/-- Modelled from the spec: the kernel provider's `shutdownAll` delegates to
`manager.shutdownAll()` (`@jupyterlab/services`, not under `src/`), which per
§4.1 "must attempt to terminate every entity the provider currently reports;
partial failure of one entity's shutdown must not prevent attempting the
others".  Each item is attempted in order; an item whose shutdown fails is
still recorded as attempted but not as shut down, and the iteration
continues.  Returns `(attempted ids, shut-down ids)`. -/
def shutdownAll (items : List ShutdownItem) : List Nat × List Nat :=
  items.foldl
    (fun acc i => (acc.1 ++ [i.id], if i.fails then acc.2 else acc.2 ++ [i.id]))
    ([], [])

open OpenTabsSignaler

/-- Erasing, one by one, every element of a list from that same list leaves
the empty list. -/
lemma foldl_erase_self (l : List Nat) :
    List.foldl (fun subs w => subs.erase w) l l = [] := by
  induction l with
  | nil => rfl
  | cons a t ih =>
    show List.foldl (fun subs w => subs.erase w) ((a :: t).erase a) t = []
    rw [List.erase_cons_head]
    exact ih

/-- Running the `_emitTabsChanged` handler body `n` times emits exactly `n`
times. -/
lemma emitIter_emissions (n : Nat) (s : State) :
    (emitIter n s).emissions = s.emissions + n := by
  induction n generalizing s with
  | zero => rfl
  | succ k ih =>
    show (emitIter k (emitTabsChanged s)).emissions = s.emissions + (k + 1)
    rw [ih]
    show s.emissions + 1 + k = s.emissions + (k + 1)
    omega



/-- C1: when the title-change notification of a widget tracked once fires
(the normal regime, in which each tracked widget holds exactly one
subscription — `s.titleSubs = s.widgets` and the widget's count is 1), the
aggregate `tabsChanged` signal is emitted exactly once, every currently
tracked widget is unsubscribed from its title-change notification
(`titleSubs` becomes empty), the tracked set is cleared, and a subsequent
title change of the same widget leaves the state — in particular the
emission count — unchanged until the widget is re-added. -/
theorem titleChanged_one_shot (s : State) (w : Nat)
    (hsub : s.titleSubs = s.widgets) (hone : s.widgets.count w = 1) :
    (titleChanged s w).emissions = s.emissions + 1 ∧
    (titleChanged s w).widgets = [] ∧
    (titleChanged s w).titleSubs = [] ∧
    titleChanged (titleChanged s w) w = titleChanged s w := by
  have hcount : s.titleSubs.count w = 1 := by rw [hsub]; exact hone
  have ht : titleChanged s w = emitTabsChanged s := by
    unfold titleChanged
    rw [hcount]
    rfl
  have hts : (emitTabsChanged s).titleSubs = [] := by
    show List.foldl (fun subs w => subs.erase w) s.titleSubs s.widgets = []
    rw [hsub]
    exact foldl_erase_self s.widgets
  refine ⟨?_, ?_, ?_, ?_⟩
  · rw [ht]; rfl
  · rw [ht]; rfl
  · rw [ht]; exact hts
  · rw [ht]
    unfold titleChanged
    rw [hts]
    rfl

/-- Witness for C1: a signaler tracking widgets 1 and 2, each subscribed
once; widget 1's title fires. -/
theorem titleChanged_one_shot_witness :
    (titleChanged ⟨[1, 2], [1, 2], 0⟩ 1).emissions = 1 ∧
    (titleChanged ⟨[1, 2], [1, 2], 0⟩ 1).widgets = [] ∧
    (titleChanged ⟨[1, 2], [1, 2], 0⟩ 1).titleSubs = [] ∧
    titleChanged (titleChanged ⟨[1, 2], [1, 2], 0⟩ 1) 1 = titleChanged ⟨[1, 2], [1, 2], 0⟩ 1 := by
  have h := titleChanged_one_shot ⟨[1, 2], [1, 2], 0⟩ 1 rfl (by decide)
  exact ⟨h.1, h.2.1, h.2.2.1, h.2.2.2⟩

/-- C2: a `layoutModified` notification of the host shell emits the
aggregate `tabsChanged` signal exactly once, from every signaler state —
hence regardless of the preceding sequence of add/remove operations and of
the current tracked set. -/
theorem layoutModified_emits_exactly_once (s : State) :
    (layoutModified s).emissions = s.emissions + 1 :=
  rfl

/-- C9: in the `_emitTabsChanged` handler the emission of the aggregate
signal happens after the state mutations it announces: the execution trace
is the unsubscription of every tracked widget, then the clearing of the
tracked set, then the emission; the emission is the last event and occurs
nowhere earlier, and the instrumented run computes the same state as
`emitTabsChanged`. -/
theorem emitTabsChanged_mutates_before_emit (s : State) :
    (emitTabsChangedRun s).2
      = s.widgets.map TraceEvent.unsubscribe
          ++ [TraceEvent.clearTracked, TraceEvent.emitSignal] ∧
    (emitTabsChangedRun s).2.getLast? = some TraceEvent.emitSignal ∧
    TraceEvent.emitSignal ∉ (emitTabsChangedRun s).2.dropLast ∧
    (emitTabsChangedRun s).1 = emitTabsChanged s := by
  have hassoc :
      (emitTabsChangedRun s).2
        = (s.widgets.map TraceEvent.unsubscribe ++ [TraceEvent.clearTracked])
            ++ [TraceEvent.emitSignal] := by
    show s.widgets.map TraceEvent.unsubscribe
          ++ [TraceEvent.clearTracked, TraceEvent.emitSignal] = _
    exact (List.append_assoc _ [TraceEvent.clearTracked] [TraceEvent.emitSignal]).symm
  refine ⟨rfl, ?_, ?_, rfl⟩
  · rw [hassoc]
    exact List.getLast?_concat _
  · rw [hassoc, List.dropLast_concat]
    intro hmem
    rcases List.mem_append.mp hmem with hmap | hsingle
    · rcases List.mem_map.mp hmap with ⟨w, _, hw⟩
      exact TraceEvent.noConfusion hw
    · exact TraceEvent.noConfusion (List.mem_singleton.mp hsingle)

/-- C6: a `MainAreaWidget` added twice with no intervening change emission
(its subscription count starts at 0) is subscribed twice to its title-change
notification, and a single subsequent title change on it makes the aggregate
signal fire twice — a benign over-notification. -/
theorem double_add_double_emission (s : State) (w : Widget)
    (hkind : w.kind = .mainArea) (hfresh : s.titleSubs.count w.id = 0) :
    (addWidget (addWidget s w) w).titleSubs.count w.id = 2 ∧
    (titleChanged (addWidget (addWidget s w) w) w.id).emissions = s.emissions + 2 := by
  have ha : addWidget s w
      = { s with titleSubs := s.titleSubs ++ [w.id], widgets := s.widgets ++ [w.id] } := by
    unfold addWidget
    rw [hkind]
  have ha2 : addWidget (addWidget s w) w
      = { s with titleSubs := (s.titleSubs ++ [w.id]) ++ [w.id],
                 widgets := (s.widgets ++ [w.id]) ++ [w.id] } := by
    rw [ha]
    unfold addWidget
    rw [hkind]
  have hcount : (addWidget (addWidget s w) w).titleSubs.count w.id = 2 := by
    rw [ha2]
    show ((s.titleSubs ++ [w.id]) ++ [w.id]).count w.id = 2
    simp [List.count_append, hfresh]
  refine ⟨hcount, ?_⟩
  unfold titleChanged
  rw [hcount, emitIter_emissions, ha2]

/-- Witness for C6: the widget with id 1 added twice to a fresh signaler. -/
theorem double_add_double_emission_witness :
    (addWidget (addWidget init ⟨1, .mainArea, "a"⟩) ⟨1, .mainArea, "a"⟩).titleSubs.count 1 = 2 ∧
    (titleChanged (addWidget (addWidget init ⟨1, .mainArea, "a"⟩) ⟨1, .mainArea, "a"⟩) 1).emissions
      = 2 := by
  have h := double_add_double_emission init ⟨1, .mainArea, "a"⟩ rfl (by decide)
  exact ⟨h.1, h.2⟩

/-- C7: `addWidget` tracks a widget — appends one title-change subscription
for it and pushes it onto the tracked set — exactly when the widget is a
`MainAreaWidget`; a widget of any other kind leaves the state (tracked set,
subscriptions and emission count alike) unchanged. -/
theorem addWidget_tracks_iff_mainArea (s : State) (w : Widget) :
    (w.kind = .mainArea →
      addWidget s w
        = { s with titleSubs := s.titleSubs ++ [w.id], widgets := s.widgets ++ [w.id] }) ∧
    (w.kind ≠ .mainArea → addWidget s w = s) := by
  constructor
  · intro hkind
    unfold addWidget
    rw [hkind]
  · intro hkind
    have hother : w.kind = .other := by
      cases hw : w.kind
      · exact absurd hw hkind
      · rfl
    unfold addWidget
    rw [hother]

/-- Witness for C7: a `MainAreaWidget` is tracked; an other-kind widget is
not. -/
theorem addWidget_tracks_iff_mainArea_witness :
    addWidget init ⟨1, .mainArea, "a"⟩
      = { widgets := [1], titleSubs := [1], emissions := 0 } ∧
    addWidget init ⟨2, .other, "b"⟩ = init := by
  constructor
  · exact (addWidget_tracks_iff_mainArea init ⟨1, .mainArea, "a"⟩).1 rfl
  · exact (addWidget_tracks_iff_mainArea init ⟨2, .other, "b"⟩).2 (by decide)

/-- C3: the kernel-session icon classification is a fixed three-way
priority: if the record's identifying name-or-path (`name ||
basename(path)`) contains `'.ipynb'` it is a notebook — even when the type
tag is `'console'`, so the extension check is taken before the type-tag
check; otherwise if the type tag lowercases to `'console'` it is a console;
otherwise it is a generic file. -/
theorem icon_three_way_priority (m : SessionModel) :
    (strIncludes m.identifying ".ipynb" = true →
      RunningKernel.icon m = .notebookIcon) ∧
    (strIncludes m.identifying ".ipynb" = false → strToLower m.type = "console" →
      RunningKernel.icon m = .consoleIcon) ∧
    (strIncludes m.identifying ".ipynb" = false → strToLower m.type ≠ "console" →
      RunningKernel.icon m = .fileIcon) := by
  refine ⟨fun h => ?_, fun h hc => ?_, fun h hc => ?_⟩
  · simp [RunningKernel.icon, h]
  · simp [RunningKernel.icon, h, hc]
  · simp [RunningKernel.icon, h, hc]

/-- Witness for C3: a record named `a.ipynb` of type `console` is a notebook
(extension check wins); a dotless record of type `Console` is a console; a
dotless record of type `python` is a file. -/
theorem icon_three_way_priority_witness :
    RunningKernel.icon ⟨"i", "a.ipynb", "p", "console"⟩ = .notebookIcon ∧
    RunningKernel.icon ⟨"i", "a", "p", "Console"⟩ = .consoleIcon ∧
    RunningKernel.icon ⟨"i", "a", "p", "python"⟩ = .fileIcon := by
  refine ⟨?_, ?_, ?_⟩
  · exact (icon_three_way_priority ⟨"i", "a.ipynb", "p", "console"⟩).1 (by decide)
  · exact (icon_three_way_priority ⟨"i", "a", "p", "Console"⟩).2.1 (by decide) (by decide)
  · exact (icon_three_way_priority ⟨"i", "a", "p", "python"⟩).2.2 (by decide) (by decide)

/-- C4: the session adapter's `running()` keeps exactly the records whose
identifying name-or-path is dotted or whose name is explicit (nonempty) —
equivalently, it excludes exactly those with neither; concretely, a record
with empty name and a dotless path is excluded, while a record named
`foo.ipynb` is included and classified as a notebook by `icon`. -/
theorem runningKernels_filter_law :
    (∀ (models : List SessionModel) (m : SessionModel),
      m ∈ runningKernels models ↔
        m ∈ models ∧
          (strIncludes m.identifying "." = true ∨ strTruthy m.name = true)) ∧
    runningKernels [⟨"i1", "", "nodot", "python"⟩] = [] ∧
    runningKernels [⟨"i2", "foo.ipynb", "", "python"⟩]
      = [⟨"i2", "foo.ipynb", "", "python"⟩] ∧
    RunningKernel.icon ⟨"i2", "foo.ipynb", "", "python"⟩ = .notebookIcon := by
  refine ⟨fun models m => ?_, by decide, by decide, by decide⟩
  rw [runningKernels, List.mem_filter, filterSessions, Bool.or_eq_true]

/-- C5: `shutdownAll` attempts to terminate every reported item — the list
of attempted ids is always the full item list, failures notwithstanding —
and in the three-item scenario where only the second item's shutdown fails,
all three are attempted and the first and third are shut down. -/
theorem shutdownAll_attempts_all :
    (∀ items : List ShutdownItem, (shutdownAll items).1 = items.map (fun i => i.id)) ∧
    shutdownAll [⟨1, false⟩, ⟨2, true⟩, ⟨3, false⟩] = ([1, 2, 3], [1, 3]) := by
  have aux : ∀ (items : List ShutdownItem) (acc : List Nat × List Nat),
      (items.foldl
        (fun acc i => (acc.1 ++ [i.id], if i.fails then acc.2 else acc.2 ++ [i.id]))
        acc).1
        = acc.1 ++ items.map (fun i => i.id) := by
    intro items
    induction items with
    | nil => intro acc; simp
    | cons i t ih => intro acc; simp [ih]
  refine ⟨fun items => ?_, by decide⟩
  have h := aux items ([], [])
  simpa [shutdownAll] using h

/-- C8: `RunningKernel.open` dispatches on a case-insensitive comparison of
the type tag with `'console'` alone: the `console:open` command channel when
it matches, the `docmanager:open` channel otherwise, in both cases carrying
the record's path. -/
theorem open_dispatch_by_type (m : SessionModel) :
    (strToLower m.type = "console" →
      RunningKernel.«open» m = .consoleOpen m.path) ∧
    (strToLower m.type ≠ "console" →
      RunningKernel.«open» m = .docmanagerOpen m.path) := by
  refine ⟨fun h => ?_, fun h => ?_⟩ <;> simp [RunningKernel.«open», h]

/-- Witness for C8: type `CONSOLE` goes to the console channel, type
`notebook` to the document channel. -/
theorem open_dispatch_by_type_witness :
    RunningKernel.«open» ⟨"i", "n", "p", "CONSOLE"⟩ = .consoleOpen "p" ∧
    RunningKernel.«open» ⟨"i", "n", "p", "notebook"⟩ = .docmanagerOpen "p" := by
  constructor
  · exact (open_dispatch_by_type ⟨"i", "n", "p", "CONSOLE"⟩).1 (by decide)
  · exact (open_dispatch_by_type ⟨"i", "n", "p", "notebook"⟩).2 (by decide)

/-- C10: the Open Tabs provider's `icon` returns the generic file icon for
every widget, whatever its kind or title — it never classifies a tab as a
notebook or console. -/
theorem openTab_icon_always_file (w : Widget) :
    OpenTab.icon w = LabIcon.fileIcon :=
  rfl
